import Mathlib

/-!
Verification development for the fake86 emulator core.

Each C construct relevant to the checked properties is shallowly embedded as a
pure Lean function over explicit state records:

* `src/cpu/cpu_mod_rm.h`    — `_decode_mod_rm` (ModR-M decoding, EA formation)
* `src/fake86/i8259.c`      — `nextintr`, `out8259` (8259 PIC)
* `src/fake86/disk.c`       — `disk_insert_image` geometry, `disk_read`,
                              `disk_write`, `disk_int_handler` (INT 13h)
* `src/fake86/video_neo.c`  — the VGA plane write engine, plane reads, and the
                              DAC/EGA port write path

Machine integers are modelled as `Nat` with explicit `% 2^w` (or bit masks)
exactly where the C types truncate.  Guest-memory traffic and backing-store
traffic of the disk handler are made observable as explicit traces so that
"no data was transferred" style properties can be stated.
-/

namespace Fake86

/-- Pointwise update of a `Nat → Nat` store (array/table cell assignment). -/
def upd (f : Nat → Nat) (a v : Nat) : Nat → Nat :=
  fun x => if x = a then v else f x

@[simp] theorem upd_same (f : Nat → Nat) (a v : Nat) : upd f a v a = v := by
  simp [upd]

@[simp] theorem upd_other (f : Nat → Nat) (a v x : Nat) (h : x ≠ a) :
    upd f a v x = f x := by
  simp [upd, h]

/-! ## ModR-M decoder (`src/cpu/cpu_mod_rm.h`) -/

/-- The CPU registers `_decode_mod_rm` reads (each a 16-bit register). -/
structure CpuRegs where
  bx : Nat
  si : Nat
  di : Nat
  bp : Nat
  ss : Nat
  ds : Nat

/-- Result record `struct cpu_mod_rm_t`. -/
structure ModRM where
  mod : Nat
  reg : Nat
  rm : Nat
  ea : Nat
  num_bytes : Nat

/-- Embedding of `_decode_mod_rm`.  `code i` is the byte stream starting at the
opcode byte (`code 1` is the ModR-M byte); each `GET_CODE(uint8_t, i)` read is
modelled as `code i % 256`, and `GET_CODE(uint16_t, 2)` as the little-endian
pair.  For `mod = 3` the source returns with `m->ea` never written; we use `0`
for that unused field.  All EA arithmetic is performed in 32-bit integers as in
the source (`int32_t addr`, `uint32_t seg`, `uint32_t ea`): the sign-extended
8-bit displacement of `mod = 1` is folded in modulo `2^32`. -/
def decode_mod_rm (r : CpuRegs) (code : Nat → Nat) : ModRM :=
  let modRegRM := code 1 % 256
  let md := (modRegRM >>> 6) &&& 0x3
  let rg := (modRegRM >>> 3) &&& 0x7
  let rm := modRegRM &&& 0x7
  if md = 3 then
    { mod := md, reg := rg, rm := rm, ea := 0, num_bytes := 1 }
  else
    let addr : Nat :=
      if md = 0 ∧ rm = 6 then
        (code 2 % 256) ||| ((code 3 % 256) <<< 8)
      else
        match rm with
        | 0 => r.bx + r.si
        | 1 => r.bx + r.di
        | 2 => r.bp + r.si
        | 3 => r.bp + r.di
        | 4 => r.si
        | 5 => r.di
        | 6 => r.bp
        | _ => r.bx
    let seg : Nat :=
      if rm = 2 ∨ rm = 3 ∨ (rm = 6 ∧ md ≠ 0) then r.ss <<< 4 else r.ds <<< 4
    if md = 0 then
      { mod := md, reg := rg, rm := rm,
        ea := (seg + addr) % 2 ^ 32,
        num_bytes := if rm = 6 then 3 else 1 }
    else if md = 1 then
      -- GET_CODE(int8_t, 2): sign extension, then uint32 wrap-around
      { mod := md, reg := rg, rm := rm,
        ea := (seg + addr + code 2 % 256 +
               (if code 2 % 256 < 128 then 0 else 2 ^ 32 - 256)) % 2 ^ 32,
        num_bytes := 2 }
    else
      { mod := md, reg := rg, rm := rm,
        ea := (seg + addr + ((code 2 % 256) ||| ((code 3 % 256) <<< 8))) % 2 ^ 32,
        num_bytes := 3 }

/-- The four decoder fields that do not depend on the register file, expressed
directly in terms of the ModR-M byte. -/
theorem decode_mod_rm_fields (r : CpuRegs) (code : Nat → Nat) :
    (decode_mod_rm r code).mod = ((code 1 % 256) >>> 6) &&& 0x3 ∧
    (decode_mod_rm r code).rm = code 1 % 256 &&& 0x7 ∧
    (decode_mod_rm r code).reg = ((code 1 % 256) >>> 3) &&& 0x7 ∧
    (decode_mod_rm r code).num_bytes =
      (if ((code 1 % 256) >>> 6) &&& 0x3 = 3 then 1
       else if ((code 1 % 256) >>> 6) &&& 0x3 = 0 then
         (if code 1 % 256 &&& 0x7 = 6 then 3 else 1)
       else if ((code 1 % 256) >>> 6) &&& 0x3 = 1 then 2 else 3) := by
  simp only [decode_mod_rm]
  generalize hmd : (code 1 % 256) >>> 6 &&& 0x3 = md
  generalize hrm : code 1 % 256 &&& 0x7 = rm
  have hmd3 : md ≤ 3 := hmd ▸ Nat.and_le_right
  interval_cases md <;> by_cases h2 : rm = 6 <;> simp [h2]

/-- A byte or-ed with a second byte shifted left by 8 is the little-endian
16-bit value. -/
theorem lor_shiftLeft8_eq (a b : Nat) (h : a < 256) :
    a ||| (b <<< 8) = a + 256 * b := by
  rw [Nat.shiftLeft_eq, Nat.lor_comm, Nat.mul_comm,
    ← Nat.mul_add_lt_is_or (show a < 2 ^ 8 by omega)]
  omega

/-- **C3.** For every ModR-M byte, the decoder's `num_bytes` field is in
`{1,2,3}` and matches the spec table: 1 when `mod=3`; 1 when `mod=0` except
`rm=6` which gives 3; 2 when `mod=1`; 3 when `mod=2`; and `mod=0` with `rm=6`
is the only `mod=0` case with `num_bytes=3`. -/
theorem c3_mod_rm_num_bytes (r : CpuRegs) (code : Nat → Nat) :
    let m := decode_mod_rm r code
    (m.num_bytes = 1 ∨ m.num_bytes = 2 ∨ m.num_bytes = 3) ∧
    (m.mod = 3 → m.num_bytes = 1) ∧
    (m.mod = 0 ∧ m.rm ≠ 6 → m.num_bytes = 1) ∧
    (m.mod = 0 ∧ m.rm = 6 → m.num_bytes = 3) ∧
    (m.mod = 1 → m.num_bytes = 2) ∧
    (m.mod = 2 → m.num_bytes = 3) ∧
    (m.mod = 0 → (m.num_bytes = 3 ↔ m.rm = 6)) := by
  obtain ⟨h1, h2, -, h4⟩ := decode_mod_rm_fields r code
  dsimp only
  rw [h1, h2, h4]
  set md := ((code 1 % 256) >>> 6) &&& 0x3 with hmd
  set rm := code 1 % 256 &&& 0x7 with hrm
  have hmd3 : md ≤ 3 := hmd ▸ Nat.and_le_right
  interval_cases md <;> by_cases h6 : rm = 6 <;> simp [h6]

/-! ### Spec-side EA model (refinement target for C4)

These definitions follow the wording of spec §4.3, not the source: the base
expression and default-segment tables, the per-`mod` displacement, and the
claimed wrap-at-16/wrap-at-20 address formula. -/

/-- Spec §4.3: base-register expression for an `rm` row (`mod ≠ 3`; the
`(mod=0, rm=6)` case has no base and is handled by the caller). -/
def spec_mod_rm_base (r : CpuRegs) (rm : Nat) : Nat :=
  match rm with
  | 0 => r.bx + r.si
  | 1 => r.bx + r.di
  | 2 => r.bp + r.si
  | 3 => r.bp + r.di
  | 4 => r.si
  | 5 => r.di
  | 6 => r.bp
  | _ => r.bx

/-- Spec §4.3: default segment, SS exactly for the BP-based rows
(`rm ∈ {2,3}`, and `rm=6` when `mod ≠ 0`). -/
def spec_mod_rm_seg (r : CpuRegs) (md rm : Nat) : Nat :=
  if rm = 2 ∨ rm = 3 ∨ (rm = 6 ∧ md ≠ 0) then r.ss else r.ds

/-- Spec §4.3: displacement per `mod` class (sign-extended byte for `mod=1`,
little-endian word for `mod=2` and the `(mod=0, rm=6)` case). -/
def spec_mod_rm_disp (code : Nat → Nat) (md rm : Nat) : Int :=
  if md = 0 then
    (if rm = 6 then ((code 2 % 256 : Nat) : Int) + 256 * ((code 3 % 256 : Nat) : Int) else 0)
  else if md = 1 then
    (if code 2 % 256 < 128 then ((code 2 % 256 : Nat) : Int)
     else ((code 2 % 256 : Nat) : Int) - 256)
  else ((code 2 % 256 : Nat) : Int) + 256 * ((code 3 % 256 : Nat) : Int)

/-- The EA formula asserted by the claim: the offset sum wraps at 16 bits and
the segment+offset sum wraps at 20 bits. -/
def spec_ea_wrap16_20 (seg base : Nat) (disp : Int) : Nat :=
  ((seg <<< 4) + (((base : Int) + disp) % 65536).toNat) % 1048576

/-- Register file for the C4 counterexample: `BX = SI = 0xFFFF`, both data and
stack segments at 0. -/
def c4_regs : CpuRegs :=
  { bx := 0xFFFF, si := 0xFFFF, di := 0, bp := 0, ss := 0, ds := 0 }

/-- **C4 counterexample.**  With `BX = SI = 0xFFFF`, `DS = 0` and ModR-M byte
`0x00` (`mod=0`, `rm=0`, no displacement), the source decoder computes
`ea = 0x1FFFE`: the base-register sum is *not* wrapped at 16 bits (which would
give `0xFFFE`), refuting the claimed formula. -/
theorem c4_counterexample :
    (decode_mod_rm c4_regs (fun _ => 0)).ea = 0x1FFFE ∧
    spec_ea_wrap16_20 (spec_mod_rm_seg c4_regs 0 0) (spec_mod_rm_base c4_regs 0)
      (spec_mod_rm_disp (fun _ => 0) 0 0) = 0xFFFE ∧
    (0x1FFFE : Nat) ≠ 0xFFFE := by
  refine ⟨by decide, by decide, by decide⟩

set_option maxHeartbeats 2000000 in
/-- **C4 (amended).**  For `mod ≠ 3` the decoded `ea` equals
`(default_segment·16 + base_register_sum + displacement) mod 2^32`: the
arithmetic is performed in 32 bits with *no* wrap of the offset sum at 16 bits
and *no* wrap of the final address at 20 bits. -/
theorem c4_amended_ea_unwrapped (r : CpuRegs) (code : Nat → Nat)
    (hbx : r.bx < 65536) (hsi : r.si < 65536) (hdi : r.di < 65536)
    (hbp : r.bp < 65536) (hss : r.ss < 65536) (hds : r.ds < 65536)
    (hmd : ((code 1 % 256) >>> 6) &&& 0x3 ≠ 3) :
    ((decode_mod_rm r code).ea : Int) =
      ((spec_mod_rm_seg r ((code 1 % 256) >>> 6 &&& 0x3) (code 1 % 256 &&& 0x7) * 16 : Int) +
        (if ((code 1 % 256) >>> 6) &&& 0x3 = 0 ∧ code 1 % 256 &&& 0x7 = 6 then 0
         else (spec_mod_rm_base r (code 1 % 256 &&& 0x7) : Int)) +
        spec_mod_rm_disp code ((code 1 % 256) >>> 6 &&& 0x3) (code 1 % 256 &&& 0x7)) %
        (2 ^ 32 : Int) := by
  have hb2 : code 2 % 256 < 256 := Nat.mod_lt _ (by omega)
  have hb3 : code 3 % 256 < 256 := Nat.mod_lt _ (by omega)
  simp only [decode_mod_rm, spec_mod_rm_seg, spec_mod_rm_base, spec_mod_rm_disp,
    lor_shiftLeft8_eq _ _ hb2]
  simp only [Nat.shiftLeft_eq]
  generalize hmd2 : (code 1 % 256) >>> 6 &&& 0x3 = md at hmd ⊢
  generalize hrm : code 1 % 256 &&& 0x7 = rm
  have hmd3 : md ≤ 3 := hmd2 ▸ Nat.and_le_right
  have hrm7 : rm ≤ 7 := hrm ▸ Nat.and_le_right
  generalize code 2 % 256 = b2 at *
  generalize code 3 % 256 = b3 at *
  interval_cases md <;> interval_cases rm <;>
    (try simp) <;> (try split_ifs) <;> push_cast <;> omega

/-- **C4 amended, witness.**  A concrete instance: `mod=1`, `rm=6`
(`BP`-based, SS segment) with displacement byte `0xFF` (−1), `BP = 0`,
`SS = 0`: the decoder yields `ea = (0 + 0 − 1) mod 2^32 = 0xFFFFFFFF`. -/
theorem c4_amended_ea_unwrapped_witness :
    ((decode_mod_rm { bx := 0, si := 0, di := 0, bp := 0, ss := 0, ds := 0 }
        (fun i => if i = 1 then 0x46 else 0xFF)).ea : Int) =
      ((spec_mod_rm_seg { bx := 0, si := 0, di := 0, bp := 0, ss := 0, ds := 0 }
          ((((fun i => if i = 1 then 0x46 else 0xFF) 1 : Nat) % 256) >>> 6 &&& 0x3)
          (((fun i => if i = 1 then 0x46 else 0xFF) 1 : Nat) % 256 &&& 0x7) * 16 : Int) +
        (if ((((fun i => if i = 1 then 0x46 else 0xFF) 1 : Nat) % 256) >>> 6) &&& 0x3 = 0 ∧
            ((fun i => if i = 1 then 0x46 else 0xFF) 1 : Nat) % 256 &&& 0x7 = 6 then 0
         else (spec_mod_rm_base { bx := 0, si := 0, di := 0, bp := 0, ss := 0, ds := 0 }
            (((fun i => if i = 1 then 0x46 else 0xFF) 1 : Nat) % 256 &&& 0x7) : Int)) +
        spec_mod_rm_disp (fun i => if i = 1 then 0x46 else 0xFF)
          ((((fun i => if i = 1 then 0x46 else 0xFF) 1 : Nat) % 256) >>> 6 &&& 0x3)
          (((fun i => if i = 1 then 0x46 else 0xFF) 1 : Nat) % 256 &&& 0x7)) % (2 ^ 32 : Int) :=
  c4_amended_ea_unwrapped _ _ (by decide) (by decide) (by decide) (by decide)
    (by decide) (by decide) (by decide)

/-! ## Disk geometry (`src/fake86/disk.c`, `disk_insert_image`) -/

/-- The geometry triple stored into `struct struct_drive` by
`disk_insert_image`. -/
structure DiskGeom where
  cyls : Nat
  heads : Nat
  sects : Nat
  deriving DecidableEq

/-- Embedding of the geometry computation of `disk_insert_image` (only the
part reached on a successful `fopen`): for `drivenum ≥ 0x80` the fixed-disk
formula, otherwise the sequential chain of `if (filesize <= …)` assignments,
each mirrored in order. -/
def disk_insert_image_geometry (drivenum filesize : Nat) : DiskGeom :=
  if drivenum ≥ 0x80 then
    { cyls := filesize / (63 * 16 * 512), heads := 16, sects := 63 }
  else
    let cyls := 80
    let sects := 18
    let heads := 2
    let sects := if filesize ≤ 1228800 then 15 else sects
    let sects := if filesize ≤ 737280 then 9 else sects
    let cyls := if filesize ≤ 368640 then 40 else cyls
    let sects := if filesize ≤ 368640 then 9 else sects
    let cyls := if filesize ≤ 163840 then 40 else cyls
    let sects := if filesize ≤ 163840 then 8 else sects
    let heads := if filesize ≤ 163840 then 1 else heads
    { cyls := cyls, heads := heads, sects := sects }

/-- The spec §4.4 floppy table, read as written: first matching row wins. -/
def spec_floppy_geometry (filesize : Nat) : DiskGeom :=
  if filesize ≤ 163840 then { cyls := 40, heads := 1, sects := 8 }
  else if filesize ≤ 368640 then { cyls := 40, heads := 2, sects := 9 }
  else if filesize ≤ 737280 then { cyls := 80, heads := 2, sects := 9 }
  else if filesize ≤ 1228800 then { cyls := 80, heads := 2, sects := 15 }
  else { cyls := 80, heads := 2, sects := 18 }

/-- **C5.** For every disk image insertion, the stored geometry is: for drive
numbers ≥ 0x80, `sects=63`, `heads=16`, `cyls=filesize/(63·16·512)`; for floppy
drives, the first matching row of the §4.4 file-size table. -/
theorem c5_disk_insert_geometry (drivenum filesize : Nat) :
    disk_insert_image_geometry drivenum filesize =
      if drivenum ≥ 0x80 then
        { cyls := filesize / (63 * 16 * 512), heads := 16, sects := 63 }
      else spec_floppy_geometry filesize := by
  simp only [disk_insert_image_geometry, spec_floppy_geometry]
  split_ifs <;> first | rfl | omega

/-! ## 8259 PIC (`src/fake86/i8259.c`) -/

/-- `struct structpic`: all registers are 8-bit; `icw` is a 5-entry array. -/
structure Pic where
  irr : Nat
  isr : Nat
  imr : Nat
  icw : Nat → Nat
  icwstep : Nat
  readmode : Nat

/-- The PIC together with the two globals `out8259` touches
(`keyboardwaitack` and `makeupticks`). -/
structure PicEnv where
  pic : Pic
  keyboardwaitack : Nat
  makeupticks : Nat

/-- The unrolled `for (i = 0; i < 8; i++)` scan for the lowest set bit of an
8-bit value, as in `nextintr` and the EOI loop of `out8259`. -/
def piclow (v : Nat) : Option Nat :=
  if v.testBit 0 then some 0
  else if v.testBit 1 then some 1
  else if v.testBit 2 then some 2
  else if v.testBit 3 then some 3
  else if v.testBit 4 then some 4
  else if v.testBit 5 then some 5
  else if v.testBit 6 then some 6
  else if v.testBit 7 then some 7
  else none

/-- Embedding of `nextintr`: mask IRR with `~IMR` (8-bit complement), take the
lowest set bit, clear it in IRR (`^=`), set it in ISR (`|=`), and return
`icw[2] + i` truncated to the `uint8_t` return type.  When no bit is eligible
the source's unreachable fall-through returns 0 with no state change. -/
def nextintr (p : Pic) : Nat × Pic :=
  let tmpirr := p.irr &&& (0xff ^^^ p.imr)
  match piclow tmpirr with
  | some i =>
      ((p.icw 2 + i) % 256,
       { p with irr := p.irr ^^^ (1 <<< i), isr := p.isr ||| (1 <<< i) })
  | none => (0, p)

/-- Embedding of `out8259` for `portnum & 1 = 0` (command port): ICW1 start,
OCW3 read-mode select, then non-specific EOI (clear lowest in-service bit,
with the IRQ0 makeup-tick credit). -/
def out8259_cmd (e : PicEnv) (value : Nat) : PicEnv :=
  if value &&& 0x10 ≠ 0 then
    { e with pic := { e.pic with icwstep := 2, imr := 0, icw := upd e.pic.icw 1 value } }
  else
    let e := if value &&& 0x98 = 8 ∧ value &&& 2 ≠ 0 then
      { e with pic := { e.pic with readmode := value &&& 2 } } else e
    if value &&& 0x20 ≠ 0 then
      let e := { e with keyboardwaitack := 0 }
      match piclow e.pic.isr with
      | some i =>
          let e := { e with pic := { e.pic with isr := e.pic.isr ^^^ (1 <<< i) } }
          if i = 0 ∧ e.makeupticks > 0 then
            { e with makeupticks := 0, pic := { e.pic with irr := e.pic.irr ||| 1 } }
          else e
      | none => e
    else e

/-- Embedding of `out8259` for `portnum & 1 = 1` (mask/ICW continuation
port). -/
def out8259_data (e : PicEnv) (value : Nat) : PicEnv :=
  let e := if e.pic.icwstep = 3 ∧ e.pic.icw 1 &&& 2 ≠ 0 then
    { e with pic := { e.pic with icwstep := 4 } } else e
  if e.pic.icwstep < 5 then
    { e with pic := { e.pic with icw := upd e.pic.icw e.pic.icwstep value,
                                 icwstep := e.pic.icwstep + 1 } }
  else
    { e with pic := { e.pic with imr := value } }

/-- Embedding of `out8259` dispatching on `portnum & 1`. -/
def out8259 (e : PicEnv) (portnum value : Nat) : PicEnv :=
  if portnum &&& 1 = 0 then out8259_cmd e value else out8259_data e value

/-- Embedding of `in8259`. -/
def in8259 (e : PicEnv) (portnum : Nat) : Nat :=
  if portnum &&& 1 = 0 then
    (if e.pic.readmode = 0 then e.pic.irr else e.pic.isr)
  else e.pic.imr

/-- `piclow` returns the lowest-numbered set bit. -/
theorem piclow_spec (v i : Nat) (h : piclow v = some i) :
    i < 8 ∧ v.testBit i = true ∧ ∀ j < i, v.testBit j = false := by
  unfold piclow at h
  split_ifs at h with h0 h1 h2 h3 h4 h5 h6 h7 <;>
    first
    | (injection h with h; subst h;
       exact ⟨by omega, by assumption, fun j hj => by interval_cases j <;> simp_all⟩)
    | cases h

/-- An 8-bit value that is nonzero has a lowest set bit for `piclow` to
find. -/
theorem piclow_isSome (v : Nat) (hne : v ≠ 0) (hlt : v < 256) :
    (piclow v).isSome := by
  unfold piclow
  split_ifs with h0 h1 h2 h3 h4 h5 h6 h7
  all_goals try exact Option.isSome_some
  exfalso
  apply hne
  apply Nat.eq_of_testBit_eq
  intro i
  rcases Nat.lt_or_ge i 8 with hi | hi
  · interval_cases i <;> simp_all
  · have h2p : v < 2 ^ i :=
      lt_of_lt_of_le hlt (le_trans (by norm_num) (Nat.pow_le_pow_right (by norm_num) hi))
    simp [Nat.testBit_lt_two_pow h2p]

/-- **C2.** For every PIC state with `IRR & ~IMR` nonzero, `nextintr` returns
`ICW[2]` plus the index of the lowest-numbered set bit of `IRR & ~IMR`
(truncated to the `uint8_t` return type), clears that bit in IRR and sets it
in ISR; in particular with `IMR = 0` and IRR bits `{3,5}` set it returns
`ICW2 + 3` leaving `ISR = {3}`, `IRR = {5}`, and a subsequent non-specific EOI
write clears the lowest set ISR bit (bit 3). -/
theorem c2_pic_next_vector (p : Pic) (hirr : p.irr < 256) (himr : p.imr < 256)
    (hne : p.irr &&& (0xff ^^^ p.imr) ≠ 0) :
    (∃ i, i < 8 ∧
      (p.irr &&& (0xff ^^^ p.imr)).testBit i = true ∧
      (∀ j < i, (p.irr &&& (0xff ^^^ p.imr)).testBit j = false) ∧
      (nextintr p).1 = (p.icw 2 + i) % 256 ∧
      (nextintr p).2.irr.testBit i = false ∧
      (∀ j, j ≠ i → (nextintr p).2.irr.testBit j = p.irr.testBit j) ∧
      (nextintr p).2.isr.testBit i = true ∧
      (∀ j, j ≠ i → (nextintr p).2.isr.testBit j = p.isr.testBit j) ∧
      (nextintr p).2.imr = p.imr ∧ (nextintr p).2.icw = p.icw) ∧
    (∀ c ka mt,
      (nextintr { irr := 0x28, isr := 0, imr := 0, icw := upd (fun _ => 0) 2 c,
                  icwstep := 0, readmode := 0 }).1 = (c + 3) % 256 ∧
      (nextintr { irr := 0x28, isr := 0, imr := 0, icw := upd (fun _ => 0) 2 c,
                  icwstep := 0, readmode := 0 }).2.isr = 0x08 ∧
      (nextintr { irr := 0x28, isr := 0, imr := 0, icw := upd (fun _ => 0) 2 c,
                  icwstep := 0, readmode := 0 }).2.irr = 0x20 ∧
      (out8259
          { pic := (nextintr { irr := 0x28, isr := 0, imr := 0,
                               icw := upd (fun _ => 0) 2 c,
                               icwstep := 0, readmode := 0 }).2,
            keyboardwaitack := ka, makeupticks := mt } 0x20 0x20).pic.isr = 0) := by
  constructor
  · have hlt : p.irr &&& (0xff ^^^ p.imr) < 256 :=
      lt_of_le_of_lt Nat.and_le_left hirr
    have hsome := piclow_isSome _ hne hlt
    obtain ⟨i, hpe⟩ := Option.isSome_iff_exists.mp hsome
    obtain ⟨hi8, hbit, hlow⟩ := piclow_spec _ _ hpe
    have hirrbit : p.irr.testBit i = true := by
      have h := hbit
      simp only [Nat.testBit_and, Bool.and_eq_true] at h
      exact h.1
    have hsl : (1 : Nat) <<< i = 2 ^ i := by rw [Nat.shiftLeft_eq, one_mul]
    refine ⟨i, hi8, hbit, hlow, ?_, ?_, ?_, ?_, ?_, ?_, ?_⟩ <;>
      simp only [nextintr, hpe]
    · simp [Nat.testBit_xor, hsl, Nat.testBit_two_pow, hirrbit]
    · intro j hj
      simp [Nat.testBit_xor, hsl, Nat.testBit_two_pow, Ne.symm hj]
    · simp [Nat.testBit_or, hsl, Nat.testBit_two_pow]
    · intro j hj
      simp [Nat.testBit_or, hsl, Nat.testBit_two_pow, Ne.symm hj]
  · intro c ka mt
    have hp : piclow ((0x28 : Nat) &&& 0xff) = some 3 := by decide
    have hp0 : piclow (0x28 : Nat) = some 3 := by decide
    have hq : piclow ((0 : Nat) ||| 1 <<< 3) = some 3 := by decide
    have hq8 : piclow (8 : Nat) = some 3 := by decide
    have a1 : (32 : Nat) &&& 16 = 0 := by decide
    have a2 : (32 : Nat) &&& 152 = 0 := by decide
    have a3 : (32 : Nat) &&& 32 = 32 := by decide
    refine ⟨?_, ?_, ?_, ?_⟩
    · simp [nextintr, hp, hp0, upd]
    · simp [nextintr, hp, hp0]
    · simp [nextintr, hp, hp0]
    · simp [nextintr, hp, hp0, out8259, out8259_cmd, hq, hq8, a1, a2, a3]

/-- **C2 witness.**  The claim instantiated at the concrete scenario state
`IRR = {3,5}`, `IMR = 0`, `ISR = 0`, `ICW2 = 8`. -/
theorem c2_pic_next_vector_witness :
    (∃ i, i < 8 ∧
      (Pic.irr { irr := 0x28, isr := 0, imr := 0, icw := upd (fun _ => 0) 2 8,
                 icwstep := 0, readmode := 0 } &&&
        (0xff ^^^ Pic.imr { irr := 0x28, isr := 0, imr := 0, icw := upd (fun _ => 0) 2 8,
                            icwstep := 0, readmode := 0 })).testBit i = true ∧
      (∀ j < i,
        (Pic.irr { irr := 0x28, isr := 0, imr := 0, icw := upd (fun _ => 0) 2 8,
                   icwstep := 0, readmode := 0 } &&&
          (0xff ^^^ Pic.imr { irr := 0x28, isr := 0, imr := 0, icw := upd (fun _ => 0) 2 8,
                              icwstep := 0, readmode := 0 })).testBit j = false) ∧
      (nextintr { irr := 0x28, isr := 0, imr := 0, icw := upd (fun _ => 0) 2 8,
                  icwstep := 0, readmode := 0 }).1 =
        (Pic.icw { irr := 0x28, isr := 0, imr := 0, icw := upd (fun _ => 0) 2 8,
                   icwstep := 0, readmode := 0 } 2 + i) % 256 ∧
      (nextintr { irr := 0x28, isr := 0, imr := 0, icw := upd (fun _ => 0) 2 8,
                  icwstep := 0, readmode := 0 }).2.irr.testBit i = false ∧
      (∀ j, j ≠ i →
        (nextintr { irr := 0x28, isr := 0, imr := 0, icw := upd (fun _ => 0) 2 8,
                    icwstep := 0, readmode := 0 }).2.irr.testBit j =
          Nat.testBit
            (Pic.irr { irr := 0x28, isr := 0, imr := 0, icw := upd (fun _ => 0) 2 8,
                       icwstep := 0, readmode := 0 }) j) ∧
      (nextintr { irr := 0x28, isr := 0, imr := 0, icw := upd (fun _ => 0) 2 8,
                  icwstep := 0, readmode := 0 }).2.isr.testBit i = true ∧
      (∀ j, j ≠ i →
        (nextintr { irr := 0x28, isr := 0, imr := 0, icw := upd (fun _ => 0) 2 8,
                    icwstep := 0, readmode := 0 }).2.isr.testBit j =
          Nat.testBit
            (Pic.isr { irr := 0x28, isr := 0, imr := 0, icw := upd (fun _ => 0) 2 8,
                       icwstep := 0, readmode := 0 }) j) ∧
      (nextintr { irr := 0x28, isr := 0, imr := 0, icw := upd (fun _ => 0) 2 8,
                  icwstep := 0, readmode := 0 }).2.imr =
        Pic.imr { irr := 0x28, isr := 0, imr := 0, icw := upd (fun _ => 0) 2 8,
                  icwstep := 0, readmode := 0 } ∧
      (nextintr { irr := 0x28, isr := 0, imr := 0, icw := upd (fun _ => 0) 2 8,
                  icwstep := 0, readmode := 0 }).2.icw =
        Pic.icw { irr := 0x28, isr := 0, imr := 0, icw := upd (fun _ => 0) 2 8,
                  icwstep := 0, readmode := 0 }) ∧
    (∀ c ka mt,
      (nextintr { irr := 0x28, isr := 0, imr := 0, icw := upd (fun _ => 0) 2 c,
                  icwstep := 0, readmode := 0 }).1 = (c + 3) % 256 ∧
      (nextintr { irr := 0x28, isr := 0, imr := 0, icw := upd (fun _ => 0) 2 c,
                  icwstep := 0, readmode := 0 }).2.isr = 0x08 ∧
      (nextintr { irr := 0x28, isr := 0, imr := 0, icw := upd (fun _ => 0) 2 c,
                  icwstep := 0, readmode := 0 }).2.irr = 0x20 ∧
      (out8259
          { pic := (nextintr { irr := 0x28, isr := 0, imr := 0,
                               icw := upd (fun _ => 0) 2 c,
                               icwstep := 0, readmode := 0 }).2,
            keyboardwaitack := ka, makeupticks := mt } 0x20 0x20).pic.isr = 0) :=
  c2_pic_next_vector
    { irr := 0x28, isr := 0, imr := 0, icw := upd (fun _ => 0) 2 8,
      icwstep := 0, readmode := 0 }
    (by decide) (by decide) (by decide)

/-! ## Disk BIOS, INT 13h (`src/fake86/disk.c`)

`disk_read`/`disk_write` act on the CPU register globals and on two external
stores: guest RAM (through `write86`/`read86`) and the disk backing file.
Both kinds of traffic are made observable: guest-memory writes are returned as
an ordered `(address, byte)` trace, and backing-store operations (seek, sector
read, sector write) are counted.  The success of each backing-store operation
is an oracle parameter, so properties can be proved for *every* behaviour of
the host filesystem. -/

/-- One `struct struct_drive` entry (the fields the INT 13h path reads). -/
structure Drive where
  inserted : Bool
  filesize : Nat
  cyls : Nat
  sects : Nat
  heads : Nat

/-- Disk-subsystem state: the drive table, the `lastdiskah`/`lastdiskcf`
static arrays of `disk_int_handler`, and the `hdcount` global. -/
structure DiskState where
  drives : Nat → Drive
  lastdiskah : Nat → Nat
  lastdiskcf : Nat → Nat
  hdcount : Nat

/-- The CPU registers the INT 13h path touches (`cf` is the carry-flag
global). -/
structure Regs86 where
  ah : Nat
  al : Nat
  bl : Nat
  ch : Nat
  cl : Nat
  dh : Nat
  dl : Nat
  bx : Nat
  es : Nat
  cf : Nat

/-- The `write86` calls of one whole-sector copy in `disk_read`'s inner loop:
512 byte writes at consecutive guest addresses. -/
def sectorWrites (base : Nat) (data : Nat → Nat) : List (Nat × Nat) :=
  (List.range 512).map fun j => (base + j, data j % 256)

/-- The `for (cursect = 0; cursect < sectcount; …)` loop of `disk_read`:
`readOk i` tells whether the i-th `_disk_read` succeeds and `sector i` gives
the bytes it fills in.  Returns the final `cursect`, the guest-write trace and
the number of backing-store reads attempted. -/
def diskReadLoop (readOk : Nat → Bool) (sector : Nat → Nat → Nat) (memdest : Nat) :
    Nat → Nat → Nat × List (Nat × Nat) × Nat
  | i, 0 => (i, [], 0)
  | i, n + 1 =>
    if readOk i then
      let rest := diskReadLoop readOk sector memdest (i + 1) n
      (rest.1, sectorWrites (memdest + 512 * i) (sector i) ++ rest.2.1, rest.2.2 + 1)
    else (i, [], 1)

/-- Embedding of `disk_read`.  Returns the updated registers, the guest-memory
write trace, and the count of backing-store operations (the seek — whose
failure the source ignores — plus each attempted sector read). -/
def disk_read (d : Drive) (dstseg dstoff cyl sect head sectcount : Nat)
    (readOk : Nat → Bool) (sector : Nat → Nat → Nat) (r : Regs86) :
    Regs86 × List (Nat × Nat) × Nat :=
  if sect = 0 ∨ ¬d.inserted then (r, [], 0)
  else
    let lba := (cyl * d.heads + head) * d.sects + sect - 1
    let fileoffset := lba * 512
    if fileoffset > d.filesize then (r, [], 0)
    else
      let memdest := (dstseg <<< 4) + dstoff
      let loopRes := diskReadLoop readOk sector memdest 0 sectcount
      ({ r with al := loopRes.1 % 256, cf := 0, ah := 0 },
       loopRes.2.1, 1 + loopRes.2.2)

/-- The write loop of `disk_write`: `writeOk i` tells whether the i-th
`_disk_write` succeeds.  Returns whether the loop ran to completion and the
number of backing-store writes attempted. -/
def diskWriteLoop (writeOk : Nat → Bool) : Nat → Nat → Bool × Nat
  | _, 0 => (true, 0)
  | i, n + 1 =>
    if writeOk i then
      let rest := diskWriteLoop writeOk (i + 1) n
      (rest.1, rest.2 + 1)
    else (false, 1)

/-- Embedding of `disk_write`.  Unlike `disk_read`, a failed seek returns
early, and a failed sector write returns without setting AL/CF/AH. -/
def disk_write (d : Drive) (dstseg dstoff cyl sect head sectcount : Nat)
    (seekOk : Bool) (writeOk : Nat → Bool) (r : Regs86) : Regs86 × Nat :=
  if sect = 0 ∨ ¬d.inserted then (r, 0)
  else
    let lba := (cyl * d.heads + head) * d.sects + sect - 1
    let fileoffset := lba * 512
    if fileoffset > d.filesize then (r, 0)
    else if ¬seekOk then (r, 1)
    else
      let loopRes := diskWriteLoop writeOk 0 sectcount
      if loopRes.1 then
        ({ r with al := sectcount % 256, cf := 0, ah := 0 }, 1 + loopRes.2)
      else (r, 1 + loopRes.2)

/-- Result of one `disk_int_handler` call: final registers, final disk state,
the guest-memory write trace, and the number of backing-store operations. -/
structure I13Result where
  regs : Regs86
  dstate : DiskState
  guestWrites : List (Nat × Nat)
  fileOps : Nat

/-- Embedding of `disk_int_handler`: the `switch (regs.byteregs[regah])`, the
common tail that records `lastdiskah`/`lastdiskcf` (skipped by the early
`return` of AH=1), and the BIOS-data-area mirror write at 0x474 for fixed
disks.  CHS values are unpacked from CX/DH exactly as in the source. -/
def disk_int_handler (s : DiskState) (r : Regs86)
    (readOk : Nat → Bool) (sector : Nat → Nat → Nat)
    (seekOk : Bool) (writeOk : Nat → Bool) : I13Result :=
  let core : Regs86 × List (Nat × Nat) × Nat × Bool :=
    if r.ah = 0 then
      ({ r with ah := 0, cf := 0 }, [], 0, false)
    else if r.ah = 1 then
      ({ r with ah := s.lastdiskah r.dl, cf := s.lastdiskcf r.dl }, [], 0, true)
    else if r.ah = 2 then
      if (s.drives r.dl).inserted then
        let res := disk_read (s.drives r.dl) r.es r.bx
          (r.ch + (r.cl / 64) * 256) (r.cl &&& 63) r.dh r.al readOk sector r
        ({ res.1 with ah := 0, cf := 0 }, res.2.1, res.2.2, false)
      else ({ r with ah := 1, cf := 1 }, [], 0, false)
    else if r.ah = 3 then
      if (s.drives r.dl).inserted then
        let res := disk_write (s.drives r.dl) r.es r.bx
          (r.ch + (r.cl / 64) * 256) (r.cl &&& 63) r.dh r.al seekOk writeOk r
        ({ res.1 with ah := 0, cf := 0 }, [], res.2, false)
      else ({ r with ah := 1, cf := 1 }, [], 0, false)
    else if r.ah = 4 ∨ r.ah = 5 then
      ({ r with ah := 0, cf := 0 }, [], 0, false)
    else if r.ah = 8 then
      let d := s.drives r.dl
      if d.inserted then
        let r1 : Regs86 :=
          { r with ah := 0, cf := 0,
                   ch := (d.cyls + 0xFFFFFFFF) % 0x100000000 % 256,
                   cl := ((d.sects &&& 63) + d.cyls / 256 * 64) % 256,
                   dh := (d.heads + 0xFFFFFFFF) % 0x100000000 % 256 }
        if r.dl < 0x80 then ({ r1 with bl := 4, dl := 2 }, [], 0, false)
        else ({ r1 with dl := s.hdcount }, [], 0, false)
      else ({ r with ah := 0xAA, cf := 1 }, [], 0, false)
    else
      ({ r with cf := 1 }, [], 0, false)
  let r2 := core.1
  if core.2.2.2 then
    { regs := r2, dstate := s, guestWrites := core.2.1, fileOps := core.2.2.1 }
  else
    let s2 : DiskState :=
      { s with lastdiskah := upd s.lastdiskah r2.dl r2.ah,
               lastdiskcf := upd s.lastdiskcf r2.dl r2.cf }
    let ws := if r2.dl &&& 0x80 ≠ 0 then core.2.1 ++ [(0x474, r2.ah)] else core.2.1
    { regs := r2, dstate := s2, guestWrites := ws, fileOps := core.2.2.1 }

/-- **C10.** For every INT 13h read (AH=2) or write (AH=3) call, the reported
status depends only on the drive's `inserted` flag: an inserted drive yields
success (CF=0, AH=0) *unconditionally* — for every outcome of the
backing-store seek/read/write oracles, including total failure — and an
uninserted drive yields (CF=1, AH=1). -/
theorem c10_int13_status_ignores_io (s : DiskState) (r : Regs86)
    (readOk : Nat → Bool) (sector : Nat → Nat → Nat) (seekOk : Bool)
    (writeOk : Nat → Bool) (h : r.ah = 2 ∨ r.ah = 3) :
    ((disk_int_handler s r readOk sector seekOk writeOk).regs.cf,
     (disk_int_handler s r readOk sector seekOk writeOk).regs.ah) =
      (if (s.drives r.dl).inserted then (0, 0) else (1, 1)) := by
  rcases h with h | h <;>
    by_cases hi : (s.drives r.dl).inserted <;>
    simp [disk_int_handler, h, hi]

/-- **C10 witness.**  An inserted drive whose every backing-store operation
fails (`readOk`/`seekOk`/`writeOk` all `false`) still reports success for an
AH=2 read. -/
theorem c10_int13_status_ignores_io_witness :
    ((disk_int_handler
        { drives := fun _ => { inserted := true, filesize := 368640, cyls := 40,
                               sects := 9, heads := 2 },
          lastdiskah := fun _ => 0, lastdiskcf := fun _ => 0, hdcount := 1 }
        { ah := 2, al := 1, bl := 0, ch := 0, cl := 1, dh := 0, dl := 0,
          bx := 0, es := 0x2000, cf := 0 }
        (fun _ => false) (fun _ _ => 0) false (fun _ => false)).regs.cf,
     (disk_int_handler
        { drives := fun _ => { inserted := true, filesize := 368640, cyls := 40,
                               sects := 9, heads := 2 },
          lastdiskah := fun _ => 0, lastdiskcf := fun _ => 0, hdcount := 1 }
        { ah := 2, al := 1, bl := 0, ch := 0, cl := 1, dh := 0, dl := 0,
          bx := 0, es := 0x2000, cf := 0 }
        (fun _ => false) (fun _ _ => 0) false (fun _ => false)).regs.ah) =
      (if (Drive.inserted
            (DiskState.drives
              { drives := fun _ => { inserted := true, filesize := 368640, cyls := 40,
                                     sects := 9, heads := 2 },
                lastdiskah := fun _ => 0, lastdiskcf := fun _ => 0, hdcount := 1 }
              (Regs86.dl { ah := 2, al := 1, bl := 0, ch := 0, cl := 1, dh := 0, dl := 0,
                           bx := 0, es := 0x2000, cf := 0 }))) then ((0 : Nat), (0 : Nat))
       else (1, 1)) :=
  c10_int13_status_ignores_io _ _ _ _ _ _ (Or.inl (by decide))

/-- **C7.** An INT 13h AH=2 call targeting an uninserted drive records and
reports CF=1, AH=1; a subsequent AH=1 call with the same DL replays that
recorded pair and touches neither the backing store (`fileOps = 0`) nor guest
memory, and leaves the disk state unchanged. -/
theorem c7_int13_last_status_replay (s : DiskState) (r r' : Regs86)
    (readOk readOk' : Nat → Bool) (sector sector' : Nat → Nat → Nat)
    (seekOk seekOk' : Bool) (writeOk writeOk' : Nat → Bool)
    (h2 : r.ah = 2) (hni : ¬(s.drives r.dl).inserted)
    (h1 : r'.ah = 1) (hdl : r'.dl = r.dl) :
    (disk_int_handler s r readOk sector seekOk writeOk).regs.cf = 1 ∧
    (disk_int_handler s r readOk sector seekOk writeOk).regs.ah = 1 ∧
    (disk_int_handler (disk_int_handler s r readOk sector seekOk writeOk).dstate r'
        readOk' sector' seekOk' writeOk').regs.ah = 1 ∧
    (disk_int_handler (disk_int_handler s r readOk sector seekOk writeOk).dstate r'
        readOk' sector' seekOk' writeOk').regs.cf = 1 ∧
    (disk_int_handler (disk_int_handler s r readOk sector seekOk writeOk).dstate r'
        readOk' sector' seekOk' writeOk').fileOps = 0 ∧
    (disk_int_handler (disk_int_handler s r readOk sector seekOk writeOk).dstate r'
        readOk' sector' seekOk' writeOk').guestWrites = [] ∧
    (disk_int_handler (disk_int_handler s r readOk sector seekOk writeOk).dstate r'
        readOk' sector' seekOk' writeOk').dstate =
      (disk_int_handler s r readOk sector seekOk writeOk).dstate := by
  simp [disk_int_handler, h2, h1, hdl, hni, upd]

/-- **C7 witness.**  Drive 0x80 uninserted; AH=2 then AH=1, both with
DL=0x80. -/
theorem c7_int13_last_status_replay_witness :
    (disk_int_handler
        { drives := fun _ => { inserted := false, filesize := 0, cyls := 0,
                               sects := 0, heads := 0 },
          lastdiskah := fun _ => 0, lastdiskcf := fun _ => 0, hdcount := 0 }
        { ah := 2, al := 1, bl := 0, ch := 0, cl := 1, dh := 0, dl := 0x80,
          bx := 0, es := 0, cf := 0 }
        (fun _ => true) (fun _ _ => 0) true (fun _ => true)).regs.cf = 1 ∧
    (disk_int_handler
        { drives := fun _ => { inserted := false, filesize := 0, cyls := 0,
                               sects := 0, heads := 0 },
          lastdiskah := fun _ => 0, lastdiskcf := fun _ => 0, hdcount := 0 }
        { ah := 2, al := 1, bl := 0, ch := 0, cl := 1, dh := 0, dl := 0x80,
          bx := 0, es := 0, cf := 0 }
        (fun _ => true) (fun _ _ => 0) true (fun _ => true)).regs.ah = 1 ∧
    (disk_int_handler
        (disk_int_handler
          { drives := fun _ => { inserted := false, filesize := 0, cyls := 0,
                                 sects := 0, heads := 0 },
            lastdiskah := fun _ => 0, lastdiskcf := fun _ => 0, hdcount := 0 }
          { ah := 2, al := 1, bl := 0, ch := 0, cl := 1, dh := 0, dl := 0x80,
            bx := 0, es := 0, cf := 0 }
          (fun _ => true) (fun _ _ => 0) true (fun _ => true)).dstate
        { ah := 1, al := 0, bl := 0, ch := 0, cl := 0, dh := 0, dl := 0x80,
          bx := 0, es := 0, cf := 0 }
        (fun _ => true) (fun _ _ => 0) true (fun _ => true)).regs.ah = 1 ∧
    (disk_int_handler
        (disk_int_handler
          { drives := fun _ => { inserted := false, filesize := 0, cyls := 0,
                                 sects := 0, heads := 0 },
            lastdiskah := fun _ => 0, lastdiskcf := fun _ => 0, hdcount := 0 }
          { ah := 2, al := 1, bl := 0, ch := 0, cl := 1, dh := 0, dl := 0x80,
            bx := 0, es := 0, cf := 0 }
          (fun _ => true) (fun _ _ => 0) true (fun _ => true)).dstate
        { ah := 1, al := 0, bl := 0, ch := 0, cl := 0, dh := 0, dl := 0x80,
          bx := 0, es := 0, cf := 0 }
        (fun _ => true) (fun _ _ => 0) true (fun _ => true)).regs.cf = 1 ∧
    (disk_int_handler
        (disk_int_handler
          { drives := fun _ => { inserted := false, filesize := 0, cyls := 0,
                                 sects := 0, heads := 0 },
            lastdiskah := fun _ => 0, lastdiskcf := fun _ => 0, hdcount := 0 }
          { ah := 2, al := 1, bl := 0, ch := 0, cl := 1, dh := 0, dl := 0x80,
            bx := 0, es := 0, cf := 0 }
          (fun _ => true) (fun _ _ => 0) true (fun _ => true)).dstate
        { ah := 1, al := 0, bl := 0, ch := 0, cl := 0, dh := 0, dl := 0x80,
          bx := 0, es := 0, cf := 0 }
        (fun _ => true) (fun _ _ => 0) true (fun _ => true)).fileOps = 0 ∧
    (disk_int_handler
        (disk_int_handler
          { drives := fun _ => { inserted := false, filesize := 0, cyls := 0,
                                 sects := 0, heads := 0 },
            lastdiskah := fun _ => 0, lastdiskcf := fun _ => 0, hdcount := 0 }
          { ah := 2, al := 1, bl := 0, ch := 0, cl := 1, dh := 0, dl := 0x80,
            bx := 0, es := 0, cf := 0 }
          (fun _ => true) (fun _ _ => 0) true (fun _ => true)).dstate
        { ah := 1, al := 0, bl := 0, ch := 0, cl := 0, dh := 0, dl := 0x80,
          bx := 0, es := 0, cf := 0 }
        (fun _ => true) (fun _ _ => 0) true (fun _ => true)).guestWrites = [] ∧
    (disk_int_handler
        (disk_int_handler
          { drives := fun _ => { inserted := false, filesize := 0, cyls := 0,
                                 sects := 0, heads := 0 },
            lastdiskah := fun _ => 0, lastdiskcf := fun _ => 0, hdcount := 0 }
          { ah := 2, al := 1, bl := 0, ch := 0, cl := 1, dh := 0, dl := 0x80,
            bx := 0, es := 0, cf := 0 }
          (fun _ => true) (fun _ _ => 0) true (fun _ => true)).dstate
        { ah := 1, al := 0, bl := 0, ch := 0, cl := 0, dh := 0, dl := 0x80,
          bx := 0, es := 0, cf := 0 }
        (fun _ => true) (fun _ _ => 0) true (fun _ => true)).dstate =
      (disk_int_handler
        { drives := fun _ => { inserted := false, filesize := 0, cyls := 0,
                               sects := 0, heads := 0 },
          lastdiskah := fun _ => 0, lastdiskcf := fun _ => 0, hdcount := 0 }
        { ah := 2, al := 1, bl := 0, ch := 0, cl := 1, dh := 0, dl := 0x80,
          bx := 0, es := 0, cf := 0 }
        (fun _ => true) (fun _ _ => 0) true (fun _ => true)).dstate :=
  c7_int13_last_status_replay _ _ _ _ _ _ _ _ _ _ _
    (by decide) (by decide) (by decide) (by decide)

/-- **C6 counterexample.**  An AH=2 read on an *inserted* drive with sector
field 0 (CL=0) transfers nothing, but is reported to the guest as *success*
(CF=0, AH=0) — not as the invalid-parameter failure the claim asserts. -/
theorem c6_counterexample :
    (disk_int_handler
        { drives := fun _ => { inserted := true, filesize := 368640, cyls := 40,
                               sects := 9, heads := 2 },
          lastdiskah := fun _ => 0, lastdiskcf := fun _ => 0, hdcount := 0 }
        { ah := 2, al := 1, bl := 0, ch := 0, cl := 0, dh := 0, dl := 0,
          bx := 0, es := 0x2000, cf := 0 }
        (fun _ => true) (fun _ _ => 0) true (fun _ => true)).regs.cf = 0 ∧
    (disk_int_handler
        { drives := fun _ => { inserted := true, filesize := 368640, cyls := 40,
                               sects := 9, heads := 2 },
          lastdiskah := fun _ => 0, lastdiskcf := fun _ => 0, hdcount := 0 }
        { ah := 2, al := 1, bl := 0, ch := 0, cl := 0, dh := 0, dl := 0,
          bx := 0, es := 0x2000, cf := 0 }
        (fun _ => true) (fun _ _ => 0) true (fun _ => true)).regs.ah = 0 ∧
    (disk_int_handler
        { drives := fun _ => { inserted := true, filesize := 368640, cyls := 40,
                               sects := 9, heads := 2 },
          lastdiskah := fun _ => 0, lastdiskcf := fun _ => 0, hdcount := 0 }
        { ah := 2, al := 1, bl := 0, ch := 0, cl := 0, dh := 0, dl := 0,
          bx := 0, es := 0x2000, cf := 0 }
        (fun _ => true) (fun _ _ => 0) true (fun _ => true)).guestWrites = [] ∧
    ¬((disk_int_handler
        { drives := fun _ => { inserted := true, filesize := 368640, cyls := 40,
                               sects := 9, heads := 2 },
          lastdiskah := fun _ => 0, lastdiskcf := fun _ => 0, hdcount := 0 }
        { ah := 2, al := 1, bl := 0, ch := 0, cl := 0, dh := 0, dl := 0,
          bx := 0, es := 0x2000, cf := 0 }
        (fun _ => true) (fun _ _ => 0) true (fun _ => true)).regs.cf = 1) := by
  refine ⟨by decide, by decide, by decide, by decide⟩

/-- **C6 (amended).**  For every AH=2/AH=3 call on an inserted drive with
sector field 0 (CL low 6 bits zero), no sector data is transferred — no
backing-store operation is attempted, no sector bytes reach guest memory
(only the fixed-disk status mirror at 0x474 for DL ≥ 0x80), and AL is left
unchanged — but the call is still reported to the guest as success (CF=0,
AH=0), not as an invalid-parameter failure. -/
theorem c6_amended_sector_zero (s : DiskState) (r : Regs86)
    (readOk : Nat → Bool) (sector : Nat → Nat → Nat) (seekOk : Bool)
    (writeOk : Nat → Bool) (h : r.ah = 2 ∨ r.ah = 3)
    (hi : (s.drives r.dl).inserted) (hs : r.cl &&& 63 = 0) :
    (disk_int_handler s r readOk sector seekOk writeOk).fileOps = 0 ∧
    (disk_int_handler s r readOk sector seekOk writeOk).guestWrites =
      (if r.dl &&& 0x80 ≠ 0 then [(0x474, 0)] else []) ∧
    (disk_int_handler s r readOk sector seekOk writeOk).regs.al = r.al ∧
    (disk_int_handler s r readOk sector seekOk writeOk).regs.cf = 0 ∧
    (disk_int_handler s r readOk sector seekOk writeOk).regs.ah = 0 := by
  rcases h with h | h <;>
    simp [disk_int_handler, disk_read, disk_write, h, hi, hs]

/-- **C6 amended, witness.**  The concrete sector-0 read of the
counterexample, on fixed disk 0x80 (so the 0x474 mirror write is visible). -/
theorem c6_amended_sector_zero_witness :
    (disk_int_handler
        { drives := fun _ => { inserted := true, filesize := 10321920, cyls := 20,
                               sects := 63, heads := 16 },
          lastdiskah := fun _ => 0, lastdiskcf := fun _ => 0, hdcount := 1 }
        { ah := 2, al := 1, bl := 0, ch := 0, cl := 0, dh := 0, dl := 0x80,
          bx := 0, es := 0x2000, cf := 0 }
        (fun _ => true) (fun _ _ => 0) true (fun _ => true)).fileOps = 0 ∧
    (disk_int_handler
        { drives := fun _ => { inserted := true, filesize := 10321920, cyls := 20,
                               sects := 63, heads := 16 },
          lastdiskah := fun _ => 0, lastdiskcf := fun _ => 0, hdcount := 1 }
        { ah := 2, al := 1, bl := 0, ch := 0, cl := 0, dh := 0, dl := 0x80,
          bx := 0, es := 0x2000, cf := 0 }
        (fun _ => true) (fun _ _ => 0) true (fun _ => true)).guestWrites =
      (if Regs86.dl { ah := 2, al := 1, bl := 0, ch := 0, cl := 0, dh := 0, dl := 0x80,
                      bx := 0, es := 0x2000, cf := 0 } &&& 0x80 ≠ 0 then [(0x474, 0)]
       else []) ∧
    (disk_int_handler
        { drives := fun _ => { inserted := true, filesize := 10321920, cyls := 20,
                               sects := 63, heads := 16 },
          lastdiskah := fun _ => 0, lastdiskcf := fun _ => 0, hdcount := 1 }
        { ah := 2, al := 1, bl := 0, ch := 0, cl := 0, dh := 0, dl := 0x80,
          bx := 0, es := 0x2000, cf := 0 }
        (fun _ => true) (fun _ _ => 0) true (fun _ => true)).regs.al =
      Regs86.al { ah := 2, al := 1, bl := 0, ch := 0, cl := 0, dh := 0, dl := 0x80,
                  bx := 0, es := 0x2000, cf := 0 } ∧
    (disk_int_handler
        { drives := fun _ => { inserted := true, filesize := 10321920, cyls := 20,
                               sects := 63, heads := 16 },
          lastdiskah := fun _ => 0, lastdiskcf := fun _ => 0, hdcount := 1 }
        { ah := 2, al := 1, bl := 0, ch := 0, cl := 0, dh := 0, dl := 0x80,
          bx := 0, es := 0x2000, cf := 0 }
        (fun _ => true) (fun _ _ => 0) true (fun _ => true)).regs.cf = 0 ∧
    (disk_int_handler
        { drives := fun _ => { inserted := true, filesize := 10321920, cyls := 20,
                               sects := 63, heads := 16 },
          lastdiskah := fun _ => 0, lastdiskcf := fun _ => 0, hdcount := 1 }
        { ah := 2, al := 1, bl := 0, ch := 0, cl := 0, dh := 0, dl := 0x80,
          bx := 0, es := 0x2000, cf := 0 }
        (fun _ => true) (fun _ _ => 0) true (fun _ => true)).regs.ah = 0 :=
  c6_amended_sector_zero _ _ _ _ _ _ (Or.inl (by decide)) (by decide) (by decide)

/-! ## VGA plane engine (`src/fake86/video_neo.c`)

The engine reads its control bits from the sequencer data file
(`_vga_seq_data`, indexed by port 0x3C4) and the graphics-controller data file
(`_vga_reg_data`, indexed by port 0x3CE).  The four 64 KiB planes
(`_vga_ram[0x40000]`) are a byte store indexed `plane*0x10000 + offset`; the
32-bit read latch (`_vga_latch`) is passed explicitly. -/

/-- The two register files the plane engine reads. -/
structure VgaRegs where
  seq_data : Nat → Nat
  reg_data : Nat → Nat

/-- `_vga_plane_write_enable` (SR02 low 4 bits). -/
def vga_plane_write_enable (r : VgaRegs) : Nat := r.seq_data 0x2 &&& 0x0f

/-- `_vga_write_mode` (GR05 low 2 bits). -/
def vga_write_mode (r : VgaRegs) : Nat := r.reg_data 0x5 &&& 3

/-- `_vga_read_mode` (GR05 bit 3). -/
def vga_read_mode (r : VgaRegs) : Nat := (r.reg_data 0x5 >>> 3) &&& 1

/-- `_vga_read_map_select` (GR04 low 2 bits). -/
def vga_read_map_select (r : VgaRegs) : Nat := r.reg_data 0x4 &&& 3

/-- `_vga_sr_enable` (GR01 low 4 bits). -/
def vga_sr_enable (r : VgaRegs) : Nat := r.reg_data 0x1 &&& 0x0f

/-- `_vga_sr_value` (GR00 low 4 bits). -/
def vga_sr_value (r : VgaRegs) : Nat := r.reg_data 0x0 &&& 0x0f

/-- `_vga_logic_op` (GR03 bits 3-4). -/
def vga_logic_op (r : VgaRegs) : Nat := (r.reg_data 0x3 >>> 3) &&& 0x03

/-- `_vga_rot_count` (GR03 low 3 bits). -/
def vga_rot_count (r : VgaRegs) : Nat := r.reg_data 0x3 &&& 0x07

/-- `_vga_bit_mask` (GR08, a full byte). -/
def vga_bit_mask (r : VgaRegs) : Nat := r.reg_data 0x8 % 256

/-- `_ror8`: 8-bit right rotate, `(in >> rot) | (((uint16_t)in << 8) >> rot)`
truncated to the `uint8_t` return type. -/
def ror8 (x rot : Nat) : Nat :=
  (((x % 256) >>> (rot % 8)) ||| (((x % 256) <<< 8) >>> (rot % 8))) % 256

/-- `_make_mask`: expand the low 4 bits into 4 byte lanes. -/
def make_mask (bits : Nat) : Nat :=
  (if bits &&& 0x1 ≠ 0 then 0x000000ff else 0) |||
  (if bits &&& 0x2 ≠ 0 then 0x0000ff00 else 0) |||
  (if bits &&& 0x4 ≠ 0 then 0x00ff0000 else 0) |||
  (if bits &&& 0x8 ≠ 0 then 0xff000000 else 0)

/-- `_broadcast`: replicate a byte into 4 lanes. -/
def broadcast (v : Nat) : Nat :=
  (v <<< 24) ||| (v <<< 16) ||| (v <<< 8) ||| v

/-- `_neo_vga_write_planes`: store the lane bytes to the planes enabled by
SR02. -/
def neo_vga_write_planes (r : VgaRegs) (ram : Nat → Nat) (addr lanes : Nat) :
    Nat → Nat :=
  let ram := if vga_plane_write_enable r &&& 0x01 ≠ 0 then
    upd ram (addr + 0x10000 * 0) ((lanes >>> 0) &&& 0xff) else ram
  let ram := if vga_plane_write_enable r &&& 0x02 ≠ 0 then
    upd ram (addr + 0x10000 * 1) ((lanes >>> 8) &&& 0xff) else ram
  let ram := if vga_plane_write_enable r &&& 0x04 ≠ 0 then
    upd ram (addr + 0x10000 * 2) ((lanes >>> 16) &&& 0xff) else ram
  if vga_plane_write_enable r &&& 0x08 ≠ 0 then
    upd ram (addr + 0x10000 * 3) ((lanes >>> 24) &&& 0xff) else ram

/-- `_neo_vga_write_alu`: ALU against the latch per GR03 bits 3-4, then the
per-bit mux between ALU result and latch under GR08, then the plane store. -/
def neo_vga_write_alu (r : VgaRegs) (latch : Nat) (ram : Nat → Nat)
    (addr input : Nat) : Nat → Nat :=
  let tmp1 :=
    if vga_logic_op r = 0 then input
    else if vga_logic_op r = 1 then input &&& latch
    else if vga_logic_op r = 2 then input ||| latch
    else input ^^^ latch
  let bm_mux := broadcast (vga_bit_mask r)
  let tmp2 := (tmp1 &&& bm_mux) ||| (latch &&& (0xffffffff ^^^ bm_mux))
  neo_vga_write_planes r ram addr tmp2

/-- `_neo_vga_write_0` (write mode 0): rotate the byte, broadcast it, then mux
per-lane with the set/reset substitute `srvl = _vga_sr_value() ? 0 : ~0u`
under the lanes enabled by GR01, and feed the ALU. -/
def neo_vga_write_0 (r : VgaRegs) (latch : Nat) (ram : Nat → Nat)
    (addr value : Nat) : Nat → Nat :=
  let v := ror8 value (vga_rot_count r)
  let path := (v <<< 24) ||| (v <<< 16) ||| (v <<< 8) ||| v
  let srvl := if vga_sr_value r ≠ 0 then 0 else 0xffffffff
  let sr_mask := 0xffffffff ^^^ make_mask (vga_sr_enable r)
  let tmp0 := (path &&& sr_mask) ||| (srvl &&& (0xffffffff ^^^ sr_mask))
  neo_vga_write_alu r latch ram addr tmp0

/-- `_neo_vga_write_1` (write mode 1): write the latch to the enabled
planes. -/
def neo_vga_write_1 (r : VgaRegs) (latch : Nat) (ram : Nat → Nat)
    (addr _value : Nat) : Nat → Nat :=
  neo_vga_write_planes r ram addr latch

/-- `_neo_vga_write_2` (write mode 2): expand the low nibble to lanes and feed
the ALU. -/
def neo_vga_write_2 (r : VgaRegs) (latch : Nat) (ram : Nat → Nat)
    (addr value : Nat) : Nat → Nat :=
  neo_vga_write_alu r latch ram addr (make_mask value)

/-- `_neo_vga_write_3` (write mode 3): rotate, AND with GR08 to get the mux
mask, then mux between the `srvl` substitute and the latch. -/
def neo_vga_write_3 (r : VgaRegs) (latch : Nat) (ram : Nat → Nat)
    (addr value : Nat) : Nat → Nat :=
  let v := ror8 value (vga_rot_count r)
  let tmp0 := vga_bit_mask r &&& v
  let srvl := if vga_sr_value r ≠ 0 then 0 else 0xffffffff
  let switcher := make_mask tmp0
  let tmp1 := (srvl &&& switcher) ||| (latch &&& (0xffffffff ^^^ switcher))
  neo_vga_write_planes r ram addr tmp1

/-- `neo_mem_write_A0000`: offset into the window, then dispatch on the write
mode.  The `value` argument is truncated to its `uint8_t` parameter type. -/
def neo_mem_write_A0000 (r : VgaRegs) (latch : Nat) (ram : Nat → Nat)
    (addr value : Nat) : Nat → Nat :=
  let a := addr - 0xA0000
  let v := value % 256
  if vga_write_mode r = 0 then neo_vga_write_0 r latch ram a v
  else if vga_write_mode r = 1 then neo_vga_write_1 r latch ram a v
  else if vga_write_mode r = 2 then neo_vga_write_2 r latch ram a v
  else neo_vga_write_3 r latch ram a v

/-- `_neo_vga_read_0` (read mode 0): the latch byte of the plane selected by
GR04. -/
def neo_vga_read_0 (r : VgaRegs) (latch : Nat) : Nat :=
  if vga_read_map_select r = 0 then (latch >>> 0) &&& 0xff
  else if vga_read_map_select r = 1 then (latch >>> 8) &&& 0xff
  else if vga_read_map_select r = 2 then (latch >>> 16) &&& 0xff
  else (latch >>> 24) &&& 0xff

/-- `neo_mem_read_A0000`: refill the latch from the four planes, then dispatch
on the read mode.  Read mode 1 (`_neo_vga_read_1`) is `UNREACHABLE()` in the
source — the emulator aborts instead of producing a byte — modelled as `none`.
Returns the (optional) byte and the new latch. -/
def neo_mem_read_A0000 (r : VgaRegs) (ram : Nat → Nat) (addr : Nat) :
    Option Nat × Nat :=
  let a := addr - 0xA0000
  let latch := (ram (a + 0x10000 * 0) % 256) |||
    ((ram (a + 0x10000 * 1) % 256) <<< 8) |||
    ((ram (a + 0x10000 * 2) % 256) <<< 16) |||
    ((ram (a + 0x10000 * 3) % 256) <<< 24)
  if vga_read_mode r = 0 then (some (neo_vga_read_0 r latch), latch)
  else (none, latch)

/-- The per-plane result byte the claim (and the source's own doc comment for
`_neo_vga_write_0`) specifies for write mode 0 on a plane with set/reset
enabled: `sr_val bit p ? 0xFF : 0x00`, combined with the plane's latch byte by
the GR03 logic op, then muxed per bit with the latch under GR08. -/
def spec_write0_sr_plane_byte (sr_val logic_op bitmask latchp p : Nat) : Nat :=
  let lane := if sr_val.testBit p then 0xff else 0x00
  let alu :=
    if logic_op = 0 then lane
    else if logic_op = 1 then lane &&& latchp
    else if logic_op = 2 then lane ||| latchp
    else lane ^^^ latchp
  (alu &&& bitmask) ||| (latchp &&& (0xff ^^^ bitmask))

/-- The VGA register state of the C1 failing input: write mode 0,
`sr_en = 0xF` (GR01), `sr_val = 0xF` (GR00), `logic_op = copy`, `rot = 0`
(GR03 = 0), `bitmask = 0xFF` (GR08), all planes write-enabled (SR02 = 0xF). -/
def c1_regs : VgaRegs :=
  { seq_data := fun i => if i = 2 then 0x0f else 0,
    reg_data := fun i => if i = 0 then 0x0f else if i = 1 then 0x0f
      else if i = 8 then 0xff else 0 }

/-- **C1 failing input.**  Write mode 0, `sr_en = 0xF`, `sr_val = 0xF`,
`logic_op = copy`, `bitmask = 0xFF`, all planes enabled, latch 0: the source's
`srvl = _vga_sr_value() ? 0 : ~0u` collapses the per-plane set/reset
substitution into a scalar — and inverts it — so every plane is written 0x00,
while the claim (and the source's own doc comment) requires each plane `p`
with `sr_val` bit `p` set to receive 0xFF. -/
theorem c1_write0_set_reset_bug :
    (neo_mem_write_A0000 c1_regs 0 (fun _ => 0) 0xA0000 0) 0x00000 = 0x00 ∧
    (neo_mem_write_A0000 c1_regs 0 (fun _ => 0) 0xA0000 0) 0x10000 = 0x00 ∧
    (neo_mem_write_A0000 c1_regs 0 (fun _ => 0) 0xA0000 0) 0x20000 = 0x00 ∧
    (neo_mem_write_A0000 c1_regs 0 (fun _ => 0) 0xA0000 0) 0x30000 = 0x00 ∧
    (∀ p, p < 4 → spec_write0_sr_plane_byte 0x0f 0 0xff 0 p = 0xff) ∧
    (0x00 : Nat) ≠ 0xff := by
  refine ⟨by decide, by decide, by decide, by decide, by decide, by decide⟩

/-- **C8.** Read mode 1 (GR05 bit 3 = 1) is not implemented: the source hits
`UNREACHABLE()` instead of returning the color-compare byte the claim
describes, so the embedded read yields no byte at all. -/
theorem c8_read_mode1_unimplemented (r : VgaRegs) (ram : Nat → Nat)
    (addr : Nat) (h : vga_read_mode r = 1) :
    (neo_mem_read_A0000 r ram addr).1 = none := by
  simp [neo_mem_read_A0000, h]

/-- **C8 witness.**  GR05 = 8 selects read mode 1; the read of 0xA0000
produces no byte. -/
theorem c8_read_mode1_unimplemented_witness :
    (neo_mem_read_A0000
        { seq_data := fun _ => 0, reg_data := fun i => if i = 5 then 8 else 0 }
        (fun _ => 0) 0xA0000).1 = none :=
  c8_read_mode1_unimplemented _ _ _ (by decide)

/-! ## EGA/DAC port writes (`ega_port_write`, ports 0x3C0-0x3CF) -/

/-- The file-scope state `ega_port_write` can touch. -/
structure EgaState where
  seq_addr : Nat
  seq_data : Nat → Nat
  reg_addr : Nat
  reg_data : Nat → Nat
  dac_entry : Nat → Nat
  dac_state : Nat
  dac_mode_write : Nat
  dac_mode_read : Nat
  dac_pal_read : Nat
  dac_pal_write : Nat
  dac_mask_reg : Nat
  flipflop : Nat
  c0_addr : Nat
  ega_dac : Nat → Nat
  ega_reg : Nat → Nat
  portram : Nat → Nat

/-- `_ega_attr_to_rgb`: unpack `..rgbRGB`, expand each channel through the LUT
`{0x00, 0xAA, 0x55, 0xFF}`, pack as RGB. -/
def ega_attr_to_rgb (value : Nat) : Nat :=
  let r := ((value >>> 4) &&& 2) ||| ((value >>> 2) &&& 1)
  let g := ((value >>> 3) &&& 2) ||| ((value >>> 1) &&& 1)
  let b := ((value >>> 2) &&& 2) ||| ((value >>> 0) &&& 1)
  let lut := fun n : Nat =>
    if n = 0 then 0x00 else if n = 1 then 0xaa else if n = 2 then 0x55 else 0xff
  (lut r <<< 16) ||| (lut g <<< 8) ||| lut b

/-- `_write_port_3c0`: address/data flip-flop on port 0x3C0. -/
def write_port_3c0 (s : EgaState) (value : Nat) : EgaState :=
  let s :=
    if s.flipflop &&& 1 ≠ 0 then
      if s.c0_addr < 16 then
        { s with ega_dac := upd s.ega_dac s.c0_addr (ega_attr_to_rgb value) }
      else { s with ega_reg := upd s.ega_reg s.c0_addr value }
    else { s with c0_addr := value &&& 0x1f }
  { s with flipflop := s.flipflop ^^^ 1 }

/-- `_dac_data_write`: deposit the 6-bit value into R, G or B of
`entry[_dac_mode_write]` according to the 0..2 sub-step, advancing the
(8-bit) write index on the B step. -/
def dac_data_write (s : EgaState) (value : Nat) : EgaState :=
  if s.dac_pal_write = 0 then
    { s with
      dac_entry := upd s.dac_entry s.dac_mode_write
        ((s.dac_entry s.dac_mode_write &&& 0x00ffff) ||| (value <<< 18)),
      dac_pal_write := 1 }
  else if s.dac_pal_write = 1 then
    { s with
      dac_entry := upd s.dac_entry s.dac_mode_write
        ((s.dac_entry s.dac_mode_write &&& 0xff00ff) ||| (value <<< 10)),
      dac_pal_write := 2 }
  else if s.dac_pal_write = 2 then
    { s with
      dac_entry := upd s.dac_entry s.dac_mode_write
        ((s.dac_entry s.dac_mode_write &&& 0xffff00) ||| (value <<< 2)),
      dac_pal_write := 0,
      dac_mode_write := (s.dac_mode_write + 1) % 256 }
  else s

/-- Embedding of `ega_port_write` (the full `switch`); `value` is truncated to
its `uint8_t` parameter type. -/
def ega_port_write (s : EgaState) (portnum value : Nat) : EgaState :=
  let v := value % 256
  if portnum = 0x3c0 then write_port_3c0 s v
  else if portnum = 0x3c4 then { s with seq_addr := v }
  else if portnum = 0x3c5 then { s with seq_data := upd s.seq_data s.seq_addr v }
  else if portnum = 0x3c6 then { s with dac_mask_reg := v }
  else if portnum = 0x3c7 then
    { s with dac_mode_read := v, dac_pal_read := 0, dac_state := 0x00 }
  else if portnum = 0x3c8 then
    { s with dac_mode_write := v, dac_pal_write := 0, dac_state := 0x03 }
  else if portnum = 0x3c9 then dac_data_write s v
  else if portnum = 0x3ce then { s with reg_addr := v }
  else if portnum = 0x3cf then { s with reg_data := upd s.reg_data s.reg_addr v }
  else { s with portram := upd s.portram portnum v }

/-- Bits of the constant mask 0xFFFF. -/
theorem testBit_mask_ffff (k : Nat) : Nat.testBit 0xffff k = decide (k < 16) := by
  rcases Nat.lt_or_ge k 16 with h | h
  · interval_cases k <;> decide
  · have h2p : (0xffff : Nat) < 2 ^ k :=
      lt_of_lt_of_le (by norm_num) (Nat.pow_le_pow_right (by norm_num) h)
    have : ¬k < 16 := by omega
    simp [Nat.testBit_lt_two_pow h2p, this]

/-- Bits of the constant mask 0xFF00FF. -/
theorem testBit_mask_ff00ff (k : Nat) :
    Nat.testBit 0xff00ff k = (decide (k < 8) || (decide (16 ≤ k) && decide (k < 24))) := by
  rcases Nat.lt_or_ge k 24 with h | h
  · interval_cases k <;> decide
  · have h2p : (0xff00ff : Nat) < 2 ^ k :=
      lt_of_lt_of_le (by norm_num) (Nat.pow_le_pow_right (by norm_num) h)
    have h8 : ¬k < 8 := by omega
    have h24 : ¬k < 24 := by omega
    simp [Nat.testBit_lt_two_pow h2p, h8, h24]

/-- Bits of the constant mask 0xFFFF00. -/
theorem testBit_mask_ffff00 (k : Nat) :
    Nat.testBit 0xffff00 k = (decide (8 ≤ k) && decide (k < 24)) := by
  rcases Nat.lt_or_ge k 24 with h | h
  · interval_cases k <;> decide
  · have h2p : (0xffff00 : Nat) < 2 ^ k :=
      lt_of_lt_of_le (by norm_num) (Nat.pow_le_pow_right (by norm_num) h)
    have h24 : ¬k < 24 := by omega
    simp [Nat.testBit_lt_two_pow h2p, h24]

/-- The three DAC sub-steps deposit `R`, `G`, `B` into disjoint bit fields and
erase every prior bit of the entry, for 6-bit `R`, `G`, `B`. -/
theorem dac_rgb_steps (x R G B : Nat) (hR : R < 64) (hG : G < 64) (hB : B < 64) :
    (((((x &&& 0xffff) ||| (R <<< 18)) &&& 0xff00ff) ||| (G <<< 10)) &&& 0xffff00) |||
        (B <<< 2) =
      (R <<< 18) ||| ((G <<< 10) ||| (B <<< 2)) := by
  have hpow : ∀ v m, v < 64 → 6 ≤ m → Nat.testBit v m = false := by
    intro v m hv hm
    apply Nat.testBit_lt_two_pow
    calc v < 64 := hv
      _ = 2 ^ 6 := by norm_num
      _ ≤ 2 ^ m := Nat.pow_le_pow_right (by norm_num) hm
  have hRb : ∀ m, 6 ≤ m → R.testBit m = false := fun m hm => hpow R m hR hm
  have hGb : ∀ m, 6 ≤ m → G.testBit m = false := fun m hm => hpow G m hG hm
  have hBb : ∀ m, 6 ≤ m → B.testBit m = false := fun m hm => hpow B m hB hm
  apply Nat.eq_of_testBit_eq
  intro k
  simp only [Nat.testBit_or, Nat.testBit_and, Nat.testBit_shiftLeft,
    testBit_mask_ffff, testBit_mask_ff00ff, testBit_mask_ffff00]
  rcases Nat.lt_or_ge k 2 with h1 | h1
  · simp [show k < 16 by omega, show ¬18 ≤ k by omega, show ¬10 ≤ k by omega,
      show ¬8 ≤ k by omega, show ¬2 ≤ k by omega]
  rcases Nat.lt_or_ge k 8 with h2 | h2
  · simp [show k < 16 by omega, show ¬18 ≤ k by omega, show ¬10 ≤ k by omega,
      show ¬8 ≤ k by omega, show k < 8 by omega, h1]
  rcases Nat.lt_or_ge k 10 with h3 | h3
  · simp [show k < 16 by omega, show ¬18 ≤ k by omega, show ¬10 ≤ k by omega,
      show ¬k < 8 by omega, show ¬16 ≤ k by omega, h2,
      hBb (k - 2) (by omega)]
  rcases Nat.lt_or_ge k 16 with h4 | h4
  · simp [show k < 16 by omega, show ¬18 ≤ k by omega, show ¬k < 8 by omega,
      show ¬16 ≤ k by omega, show k < 24 by omega, h2, h3,
      hBb (k - 2) (by omega)]
  rcases Nat.lt_or_ge k 18 with h5 | h5
  · simp [show ¬k < 16 by omega, show ¬18 ≤ k by omega, show ¬k < 8 by omega,
      show 16 ≤ k by omega, show k < 24 by omega, h2, h3,
      hBb (k - 2) (by omega), hGb (k - 10) (by omega)]
  rcases Nat.lt_or_ge k 24 with h6 | h6
  · simp [show ¬k < 16 by omega, show ¬k < 8 by omega, show 16 ≤ k by omega,
      show k < 24 by omega, h2, h3, h5,
      hBb (k - 2) (by omega), hGb (k - 10) (by omega)]
  · simp [show ¬k < 16 by omega, show ¬k < 8 by omega, show ¬k < 24 by omega,
      h2, h3, h5,
      hBb (k - 2) (by omega), hGb (k - 10) (by omega), hRb (k - 18) (by omega)]

/-- **C9.** After writing index `i` to port 0x3C8 and then 6-bit `R`, `G`, `B`
in order to port 0x3C9, `dac_entry[i] = (R<<18)|(G<<10)|(B<<2)` regardless of
the entry's prior contents, the sub-step has wrapped 0→1→2→0, and the write
index has advanced to `(i+1) mod 256`. -/
theorem c9_dac_write_sequence (s : EgaState) (i R G B : Nat)
    (hi : i < 256) (hR : R < 64) (hG : G < 64) (hB : B < 64) :
    (ega_port_write (ega_port_write (ega_port_write (ega_port_write s 0x3c8 i)
        0x3c9 R) 0x3c9 G) 0x3c9 B).dac_entry i =
      (R <<< 18) ||| ((G <<< 10) ||| (B <<< 2)) ∧
    (ega_port_write s 0x3c8 i).dac_pal_write = 0 ∧
    (ega_port_write (ega_port_write s 0x3c8 i) 0x3c9 R).dac_pal_write = 1 ∧
    (ega_port_write (ega_port_write (ega_port_write s 0x3c8 i) 0x3c9 R)
        0x3c9 G).dac_pal_write = 2 ∧
    (ega_port_write (ega_port_write (ega_port_write (ega_port_write s 0x3c8 i)
        0x3c9 R) 0x3c9 G) 0x3c9 B).dac_pal_write = 0 ∧
    (ega_port_write (ega_port_write (ega_port_write (ega_port_write s 0x3c8 i)
        0x3c9 R) 0x3c9 G) 0x3c9 B).dac_mode_write = (i + 1) % 256 := by
  have hi' : i % 256 = i := Nat.mod_eq_of_lt hi
  have hR' : R % 256 = R := Nat.mod_eq_of_lt (by omega)
  have hG' : G % 256 = G := Nat.mod_eq_of_lt (by omega)
  have hB' : B % 256 = B := Nat.mod_eq_of_lt (by omega)
  refine ⟨?_, ?_, ?_, ?_, ?_, ?_⟩ <;>
    simp [ega_port_write, dac_data_write, upd, hi', hR', hG', hB',
      dac_rgb_steps (s.dac_entry i) R G B hR hG hB]

/-- **C9 witness.**  Index 5, `R=1`, `G=2`, `B=3`, over a DAC entry previously
holding `0xDEADBEEF`. -/
theorem c9_dac_write_sequence_witness :
    (ega_port_write (ega_port_write (ega_port_write (ega_port_write
        { seq_addr := 0, seq_data := fun _ => 0, reg_addr := 0,
          reg_data := fun _ => 0, dac_entry := fun _ => 0xDEADBEEF,
          dac_state := 0, dac_mode_write := 0, dac_mode_read := 0,
          dac_pal_read := 0, dac_pal_write := 0, dac_mask_reg := 0,
          flipflop := 0, c0_addr := 0, ega_dac := fun _ => 0,
          ega_reg := fun _ => 0, portram := fun _ => 0 } 0x3c8 5)
        0x3c9 1) 0x3c9 2) 0x3c9 3).dac_entry 5 =
      ((1 : Nat) <<< 18) ||| (((2 : Nat) <<< 10) ||| ((3 : Nat) <<< 2)) ∧
    (ega_port_write
        { seq_addr := 0, seq_data := fun _ => 0, reg_addr := 0,
          reg_data := fun _ => 0, dac_entry := fun _ => 0xDEADBEEF,
          dac_state := 0, dac_mode_write := 0, dac_mode_read := 0,
          dac_pal_read := 0, dac_pal_write := 0, dac_mask_reg := 0,
          flipflop := 0, c0_addr := 0, ega_dac := fun _ => 0,
          ega_reg := fun _ => 0, portram := fun _ => 0 } 0x3c8 5).dac_pal_write = 0 ∧
    (ega_port_write (ega_port_write
        { seq_addr := 0, seq_data := fun _ => 0, reg_addr := 0,
          reg_data := fun _ => 0, dac_entry := fun _ => 0xDEADBEEF,
          dac_state := 0, dac_mode_write := 0, dac_mode_read := 0,
          dac_pal_read := 0, dac_pal_write := 0, dac_mask_reg := 0,
          flipflop := 0, c0_addr := 0, ega_dac := fun _ => 0,
          ega_reg := fun _ => 0, portram := fun _ => 0 } 0x3c8 5)
        0x3c9 1).dac_pal_write = 1 ∧
    (ega_port_write (ega_port_write (ega_port_write
        { seq_addr := 0, seq_data := fun _ => 0, reg_addr := 0,
          reg_data := fun _ => 0, dac_entry := fun _ => 0xDEADBEEF,
          dac_state := 0, dac_mode_write := 0, dac_mode_read := 0,
          dac_pal_read := 0, dac_pal_write := 0, dac_mask_reg := 0,
          flipflop := 0, c0_addr := 0, ega_dac := fun _ => 0,
          ega_reg := fun _ => 0, portram := fun _ => 0 } 0x3c8 5)
        0x3c9 1) 0x3c9 2).dac_pal_write = 2 ∧
    (ega_port_write (ega_port_write (ega_port_write (ega_port_write
        { seq_addr := 0, seq_data := fun _ => 0, reg_addr := 0,
          reg_data := fun _ => 0, dac_entry := fun _ => 0xDEADBEEF,
          dac_state := 0, dac_mode_write := 0, dac_mode_read := 0,
          dac_pal_read := 0, dac_pal_write := 0, dac_mask_reg := 0,
          flipflop := 0, c0_addr := 0, ega_dac := fun _ => 0,
          ega_reg := fun _ => 0, portram := fun _ => 0 } 0x3c8 5)
        0x3c9 1) 0x3c9 2) 0x3c9 3).dac_pal_write = 0 ∧
    (ega_port_write (ega_port_write (ega_port_write (ega_port_write
        { seq_addr := 0, seq_data := fun _ => 0, reg_addr := 0,
          reg_data := fun _ => 0, dac_entry := fun _ => 0xDEADBEEF,
          dac_state := 0, dac_mode_write := 0, dac_mode_read := 0,
          dac_pal_read := 0, dac_pal_write := 0, dac_mask_reg := 0,
          flipflop := 0, c0_addr := 0, ega_dac := fun _ => 0,
          ega_reg := fun _ => 0, portram := fun _ => 0 } 0x3c8 5)
        0x3c9 1) 0x3c9 2) 0x3c9 3).dac_mode_write = (5 + 1) % 256 :=
  c9_dac_write_sequence _ 5 1 2 3 (by decide) (by decide) (by decide) (by decide)

end Fake86
